import Mathlib

/-!
Shallow embedding of `src/platform/functions/python-runtime/index.py` (sst/ion):
a custom Lambda runtime driver. The script resolves a handler from a dotted
path argument, redirects stdout/stderr into StringIO buffers, then loops:
GET the next invocation, build a context dict, call the handler, and POST
either the JSON result (with a fixed 500 ms retry loop on exceptions) or an
error record. External effects (HTTP calls, the handler, the wall clock) are
modelled by explicit outcome oracles; the driver itself is translated line by
line into pure functions producing a trace of network actions.
-/

namespace PyRuntime

/-- JSON values, the payloads exchanged with the control plane. Python's
`json.dumps`/`json.loads` round-trip is the json library's contract, so the
wire body of a POST is modelled as the `Json` value itself. -/
inductive Json where
  | null : Json
  | bool (b : Bool) : Json
  | num (n : Int) : Json
  | str (s : String) : Json
  | arr (items : List Json) : Json
  | obj (fields : List (String × Json)) : Json

/-- A Python exception as the runtime observes it: `str(ex)` and the lines of
`traceback.format_exc().split("\n")`. -/
structure Exc where
  message : String
  traceLines : List String

/-- The error body built by `report_error`: errorType is always the literal
"Error", errorMessage is `str(ex)`, trace the formatted traceback lines. -/
structure ErrorRecord where
  errorType : String
  errorMessage : String
  trace : List String
deriving DecidableEq

/-- report_error builds this record from the exception (index.py lines 13-17). -/
def errorRecordOf (ex : Exc) : ErrorRecord :=
  { errorType := "Error", errorMessage := ex.message, trace := ex.traceLines }

/-- Outcome of one `requests.post` call: either the request fails with a
network-level exception, or it completes with some HTTP status code.
`requests.post` raises only on network failure; an HTTP error status does not
raise unless `raise_for_status()` is called on the response. -/
inductive PostOutcome where
  | netFail : PostOutcome
  | completed (status : Nat) : PostOutcome
deriving DecidableEq

/-- Whether the POST completed (did not raise). Any HTTP status counts. -/
def postDelivered : PostOutcome → Bool
  | .netFail => false
  | .completed _ => true

/-- 2xx statuses, the "success" statuses of the HTTP contract. -/
def isSuccessStatus (s : Nat) : Bool :=
  200 ≤ s && s < 300

/-- One observable network action of the driver, with whether the request
completed (`delivered`). A POST that completed carries any HTTP status; the
driver never inspects statuses of its POSTs. -/
inductive Action where
  | getNext (succeeded : Bool) : Action
  | postResponse (requestId : String) (body : Json) (delivered : Bool) : Action
  | postInvocationError (requestId : String) (record : ErrorRecord) (delivered : Bool) : Action
  | postInitError (record : ErrorRecord) (delivered : Bool) : Action
  | sleepMs (ms : Nat) : Action

/-- report_error (index.py lines 12-28): builds the error record, picks the
init-error endpoint when `context is None` and the invocation-error endpoint
otherwise, and POSTs it. There is NO try/except around the `requests.post`
call: the returned Bool is `true` when the POST raised, and that exception
propagates to report_error's caller. -/
def report_error (ex : Exc) (context : Option String) (outcome : PostOutcome) :
    List Action × Bool :=
  let record := errorRecordOf ex
  match context with
  | none => ([Action.postInitError record (postDelivered outcome)], !postDelivered outcome)
  | some requestId =>
      ([Action.postInvocationError requestId record (postDelivered outcome)],
        !postDelivered outcome)

/-- Python list.rsplit(sep, 1) on a single char, as an Option: splits at the
LAST occurrence of `c`, `none` when `c` does not occur (in which case the
two-name unpacking in index.py line 36 raises ValueError). Implemented by
finding the first occurrence in the reversed character list. -/
def splitFirstChar (c : Char) : List Char → Option (List Char × List Char)
  | [] => none
  | x :: rest =>
      if x = c then some ([], rest)
      else
        match splitFirstChar c rest with
        | none => none
        | some (a, b) => some (x :: a, b)

/-- `s.rsplit(c, 1)` on strings: `some (before, after)` split at the last
occurrence of `c`, else `none`. -/
def splitLastChar (c : Char) (s : String) : Option (String × String) :=
  match splitFirstChar c s.data.reverse with
  | none => none
  | some (revAfter, revBefore) =>
      some (String.mk revBefore.reverse, String.mk revAfter.reverse)

/-- `handler.rsplit(".", 1)` (index.py line 36). -/
def splitLastDot (s : String) : Option (String × String) :=
  splitLastChar '.' s

/-- `os.path.basename(module_path)` as used on line 38: the part after the
last path separator, or the whole string when there is none. -/
def basename (p : String) : String :=
  match splitLastChar '/' p with
  | none => p
  | some (_, b) => b

mutual

/-- Python `str`/`json.dumps` rendering of a JSON value, used only for the
text the driver prints into the capture buffers. -/
def dumps : Json → String
  | .null => "null"
  | .bool true => "true"
  | .bool false => "false"
  | .num n => toString n
  | .str s => "\"" ++ s ++ "\""
  | .arr items => "[" ++ dumpsList items ++ "]"
  | .obj fields => "\x7b" ++ dumpsFields fields ++ "\x7d"

def dumpsList : List Json → String
  | [] => ""
  | [x] => dumps x
  | x :: rest => dumps x ++ ", " ++ dumpsList rest

def dumpsFields : List (String × Json) → String
  | [] => ""
  | [(k, v)] => "\"" ++ k ++ "\": " ++ dumps v
  | (k, v) :: rest => "\"" ++ k ++ "\": " ++ dumps v ++ ", " ++ dumpsFields rest

end

/-- The data of a successful fetch (index.py lines 68-90): request id, ARN and
deadline parsed from the response headers, the event from the JSON body. -/
structure FetchData where
  requestId : String
  functionArn : String
  deadlineMs : Int
  event : Json

/-- Outcome of one `requests.get(.../invocation/next)` round: `fail` covers a
network failure, a non-2xx status (which `raise_for_status()` turns into an
exception) and a malformed JSON body (`response.json()` raising); all three
land in the same `except` clause of the loop. -/
inductive FetchOutcome where
  | fail (ex : Exc) : FetchOutcome
  | ok (fd : FetchData) : FetchOutcome

/-- The context dict built from the fetched headers (index.py lines 72-90),
restricted to the fields the driver itself uses. The deadline header is
stored so `getRemainingTimeInMillis` can be re-evaluated at any call time. -/
structure Context where
  awsRequestId : String
  invokedFunctionArn : String
  deadlineMs : Int

def buildContext (fd : FetchData) : Context :=
  { awsRequestId := fd.requestId
    invokedFunctionArn := fd.functionArn
    deadlineMs := fd.deadlineMs }

/-- `context["getRemainingTimeInMillis"]` (index.py lines 77-81):
`max(int(deadline-header) - int(time.time() * 1000), 0)`, a closure over the
response headers re-evaluated with the wall clock at each call. `nowMs`
stands for `int(time.time() * 1000)` at the moment of the call. -/
def getRemainingTimeInMillis (ctx : Context) (nowMs : Int) : Int :=
  max (ctx.deadlineMs - nowMs) 0

/-- What one call of `handler_function(event, context)` does: the text it
writes to the redirected stdout/stderr, and whether it returns or raises. -/
inductive HandlerOutcome where
  | returns (result : Json) : HandlerOutcome
  | raises (ex : Exc) : HandlerOutcome

structure HandlerBehavior where
  stdoutText : String
  stderrText : String
  outcome : HandlerOutcome

/-- The two StringIO capture buffers (index.py lines 60-63). `sys.stdout` and
`sys.stderr` point at them for the whole life of the loop. -/
structure Buffers where
  stdout_buffer : String
  stderr_buffer : String
deriving DecidableEq

def initialBuffers : Buffers := { stdout_buffer := "", stderr_buffer := "" }

/-- External outcomes for one pass of the `while True` loop body: the fetch,
the handler call, the outcome of the error POST should `report_error` run
this pass, and the outcomes of the successive response POST attempts. -/
structure IterEnv where
  fetch : FetchOutcome
  handler : HandlerBehavior
  errorPost : PostOutcome
  responsePosts : List PostOutcome

/-- How one pass of the loop body ended. `next buf`: the pass reached a
`continue` or the end of the body and the loop re-enters the fetch with
buffer state `buf`. `crashed`: an exception escaped the loop body (only
possible when `report_error`'s own POST raises inside an `except` clause) and
the process dies. `retrying`: the finite oracle list for the response-POST
retry loop ran out with every attempt failing — a prefix of an execution
still stuck in the retry loop, so no next fetch happens within it. -/
inductive IterResult where
  | next (buffers : Buffers) : IterResult
  | crashed : IterResult
  | retrying (buffers : Buffers) : IterResult

/-- Result of one loop-body pass: the network actions it performed, how it
ended, and — on the successful-handler path only — the pair of strings read
out of the buffers by `getvalue()` (the drained output, index.py lines
104-105). -/
structure IterOut where
  actions : List Action
  result : IterResult
  drained : Option Buffers

/-- Text of `print(f"invoking handler \x7bhandler_function\x7d")` (line 98);
`handlerRepr` stands for Python's rendering of the function object. The
print goes to the redirected `sys.stdout`, i.e. into the capture buffer. -/
def invokingLine (handlerRepr : String) : String :=
  "invoking handler " ++ handlerRepr ++ "\n"

/-- Text of `print(f"handler returned \x7bresult\x7d")` (line 100), with
`dumps` standing in for Python's `str` rendering of the result; it only
affects logged text, never a wire body. -/
def returnedLine (result : Json) : String :=
  "handler returned " ++ dumps result ++ "\n"

/-- The response-delivery retry loop (index.py lines 113-123): POST the
serialized result; `break` as soon as a POST call returns — NO status check
is made on the response, so any completed POST ends the loop — and on an
exception sleep 0.5 s and try again. The outcome list drives successive
attempts; the returned Bool is `true` when some attempt completed (the
`break` was reached) and `false` when the finite oracle ran out, i.e. the
execution prefix is still inside the retry loop. -/
def respondRetry (requestId : String) (body : Json) :
    List PostOutcome → List Action × Bool
  | [] => ([], false)
  | .netFail :: rest =>
      (Action.postResponse requestId body false :: Action.sleepMs 500 ::
          (respondRetry requestId body rest).1,
        (respondRetry requestId body rest).2)
  | .completed _ :: _ => ([Action.postResponse requestId body true], true)

/-- One pass of the `while True` loop body (index.py lines 66-129), line by
line. Fetch failure: `report_error(ex)` with NO context — routed to the
init-error endpoint — then `continue`; if that report itself raises, the
exception escapes the loop. Fetch success: `print` the invoking line into
the stdout buffer, run the handler (its writes are captured); on a handler
exception `report_error(ex, context)` then `continue` — the buffers are NOT
touched. On handler return: print the returned line, read both buffers with
`getvalue()` (the drained pair), `print` the drained stdout and stderr —
which, `sys.stdout` still being redirected, appends them back into the
stdout buffer — run the response retry loop, and only after its `break`
truncate both buffers to empty. -/
def iter (handlerRepr : String) (buf : Buffers) (env : IterEnv) : IterOut :=
  match env.fetch with
  | .fail ex =>
      let rep := report_error ex none env.errorPost
      { actions := Action.getNext false :: rep.1
        result := if rep.2 then .crashed else .next buf
        drained := none }
  | .ok fd =>
      let ctx := buildContext fd
      let buf1 : Buffers :=
        { buf with stdout_buffer := buf.stdout_buffer ++ invokingLine handlerRepr }
      let buf2 : Buffers :=
        { stdout_buffer := buf1.stdout_buffer ++ env.handler.stdoutText
          stderr_buffer := buf1.stderr_buffer ++ env.handler.stderrText }
      match env.handler.outcome with
      | .raises ex =>
          let rep := report_error ex (some ctx.awsRequestId) env.errorPost
          { actions := Action.getNext true :: rep.1
            result := if rep.2 then .crashed else .next buf2
            drained := none }
      | .returns result =>
          let buf3 : Buffers :=
            { buf2 with stdout_buffer := buf2.stdout_buffer ++ returnedLine result }
          let stdoutDrained := buf3.stdout_buffer
          let stderrDrained := buf3.stderr_buffer
          let buf4 : Buffers :=
            { buf3 with stdout_buffer :=
                buf3.stdout_buffer ++ stdoutDrained ++ "\n" ++ stderrDrained ++ "\n" }
          let retry := respondRetry ctx.awsRequestId result env.responsePosts
          { actions := Action.getNext true :: retry.1
            result := if retry.2 then .next initialBuffers else .retrying buf4
            drained := some { stdout_buffer := stdoutDrained, stderr_buffer := stderrDrained } }

/-- How a finite run of the loop ended: the oracle list ran out with the loop
about to fetch again (`ranOut`), or the process crashed, or the prefix ends
inside the response retry loop (`retrying`). -/
inductive LoopEnd where
  | ranOut (buffers : Buffers) : LoopEnd
  | crashed : LoopEnd
  | retrying (buffers : Buffers) : LoopEnd

/-- The `while True` loop over a finite oracle of per-pass environments:
passes run strictly one after another, each drawing one environment. -/
def runLoop (handlerRepr : String) (buf : Buffers) :
    List IterEnv → List IterOut × LoopEnd
  | [] => ([], .ranOut buf)
  | env :: rest =>
      let out := iter handlerRepr buf env
      match out.result with
      | .next buf2 =>
          (out :: (runLoop handlerRepr buf2 rest).1, (runLoop handlerRepr buf2 rest).2)
      | .crashed => ([out], .crashed)
      | .retrying buf2 => ([out], .retrying buf2)

/-- The ways the `try` block of handler resolution (index.py lines 43-57) can
go. `fileMissing`: `exec_module` raises because `module_path + ".py"` does
not exist; `loadRaises`: the module body raises while executing;
`attrMissing`: `getattr(module, function_name)` raises AttributeError;
`notCallable`: the explicit `raise ImportError(...)` on lines 52-54, whose
message the code itself builds (it carries only the traceback lines the
interpreter would attach). All four are caught by the `except` clause. -/
inductive ResolutionOutcome where
  | ok : ResolutionOutcome
  | fileMissing (ex : Exc) : ResolutionOutcome
  | loadRaises (ex : Exc) : ResolutionOutcome
  | attrMissing (ex : Exc) : ResolutionOutcome
  | notCallable (traceLines : List String) : ResolutionOutcome

/-- The exception reaching the `except Exception as ex` clause, if any. For
`notCallable` the message is the f-string of index.py lines 52-54. -/
def resolutionExc (functionName moduleName : String) :
    ResolutionOutcome → Option Exc
  | .ok => none
  | .fileMissing ex => some ex
  | .loadRaises ex => some ex
  | .attrMissing ex => some ex
  | .notCallable tb =>
      some { message := functionName ++ " is not a callable function in " ++ moduleName
             traceLines := tb }

/-- How the startup portion of the script ends. `enteredLoop`: resolution
succeeded and control reaches the capture setup and the `while True` loop.
`exited n`: `sys.exit(n)` ran. `crashedUnhandled`: an exception escaped the
top level of the script — CPython then terminates the process with exit
status 1 after printing the traceback. -/
inductive StartupResult where
  | enteredLoop (module_path function_name : String) : StartupResult
  | exited (code : Nat) : StartupResult
  | crashedUnhandled : StartupResult

/-- Exit status of the process for a startup result that did not reach the
loop; an unhandled exception makes CPython exit with status 1. -/
def startupExitStatus : StartupResult → Option Nat
  | .enteredLoop _ _ => none
  | .exited n => some n
  | .crashedUnhandled => some 1

/-- The startup path (index.py lines 31-57): `handler.rsplit(".", 1)` — a
ValueError escapes unhandled when `arg` has no dot, BEFORE the `try` block,
so nothing is reported; otherwise resolution runs, and on failure
`report_error(ex)` (init-error endpoint, `initPost` being its POST outcome)
is followed by `sys.exit(1)` — unless the report itself raised, in which
case the exception escapes and `sys.exit` is never reached. -/
def startup (arg : String) (res : ResolutionOutcome) (initPost : PostOutcome) :
    List Action × StartupResult :=
  match splitLastDot arg with
  | none => ([], .crashedUnhandled)
  | some (module_path, function_name) =>
      let module_name := basename module_path
      match resolutionExc function_name module_name res with
      | none => ([], .enteredLoop module_path function_name)
      | some ex =>
          let rep := report_error ex none initPost
          (rep.1, if rep.2 then .crashedUnhandled else .exited 1)

/-- A terminal delivery for an invocation: a response POST or an
invocation-error POST that completed. -/
def isTerminal : Action → Bool
  | .postResponse _ _ true => true
  | .postInvocationError _ _ true => true
  | _ => false

def countTerminal (acts : List Action) : Nat :=
  (acts.filter isTerminal).length

def isGetNext : Action → Bool
  | .getNext _ => true
  | _ => false

def countGetNext (acts : List Action) : Nat :=
  (acts.filter isGetNext).length

/-- A completed response POST for the given request id. -/
def isDeliveredResponseFor (requestId : String) : Action → Bool
  | .postResponse r _ true => r == requestId
  | _ => false

def countDeliveredResponseFor (requestId : String) (acts : List Action) : Nat :=
  (acts.filter (isDeliveredResponseFor requestId)).length

/-- An attempted (delivered or not) response POST. -/
def isResponseAttempt : Action → Bool
  | .postResponse _ _ _ => true
  | _ => false

def countResponseAttempts (acts : List Action) : Nat :=
  (acts.filter isResponseAttempt).length

def isInitErrorPost : Action → Bool
  | .postInitError _ _ => true
  | _ => false

def countInitErrorPosts (acts : List Action) : Nat :=
  (acts.filter isInitErrorPost).length

def isSleep (ms : Nat) : Action → Bool
  | .sleepMs m => m == ms
  | _ => false

def countSleeps (ms : Nat) (acts : List Action) : Nat :=
  (acts.filter (isSleep ms)).length

/-- The action trace of a retry round with `n` failed attempts followed by
one completed attempt: each failure is followed by the 500 ms sleep, and the
final attempt completes. Used to state properties of `respondRetry`. -/
def retryTrace (requestId : String) (body : Json) : Nat → List Action
  | 0 => [Action.postResponse requestId body true]
  | n + 1 =>
      Action.postResponse requestId body false :: Action.sleepMs 500 ::
        retryTrace requestId body n

lemma respondRetry_replicate (rid : String) (body : Json) (s : Nat)
    (rest : List PostOutcome) :
    ∀ n : Nat,
      respondRetry rid body
          (List.replicate n PostOutcome.netFail ++ PostOutcome.completed s :: rest)
        = (retryTrace rid body n, true)
  | 0 => by simp [respondRetry, retryTrace]
  | n + 1 => by
      simp [List.replicate_succ, respondRetry, retryTrace,
        respondRetry_replicate rid body s rest n]

lemma countGetNext_retryTrace (rid : String) (body : Json) :
    ∀ n : Nat, countGetNext (retryTrace rid body n) = 0
  | 0 => rfl
  | n + 1 => by
      simpa [retryTrace, countGetNext, isGetNext, List.filter] using
        countGetNext_retryTrace rid body n

lemma countTerminal_retryTrace (rid : String) (body : Json) :
    ∀ n : Nat, countTerminal (retryTrace rid body n) = 1
  | 0 => rfl
  | n + 1 => by
      simpa [retryTrace, countTerminal, isTerminal, List.filter] using
        countTerminal_retryTrace rid body n

lemma countResponseAttempts_retryTrace (rid : String) (body : Json) :
    ∀ n : Nat, countResponseAttempts (retryTrace rid body n) = n + 1
  | 0 => rfl
  | n + 1 => by
      simpa [retryTrace, countResponseAttempts, isResponseAttempt, List.filter] using
        countResponseAttempts_retryTrace rid body n

lemma countSleeps_retryTrace (rid : String) (body : Json) :
    ∀ n : Nat, countSleeps 500 (retryTrace rid body n) = n
  | 0 => rfl
  | n + 1 => by
      simpa [retryTrace, countSleeps, isSleep, List.filter] using
        countSleeps_retryTrace rid body n

lemma countDeliveredResponseFor_retryTrace (rid : String) (body : Json) :
    ∀ n : Nat, countDeliveredResponseFor rid (retryTrace rid body n) = 1
  | 0 => by simp [retryTrace, countDeliveredResponseFor, isDeliveredResponseFor, List.filter]
  | n + 1 => by
      simpa [retryTrace, countDeliveredResponseFor, isDeliveredResponseFor, List.filter]
        using countDeliveredResponseFor_retryTrace rid body n

lemma mem_retryTrace (rid : String) (body : Json) :
    ∀ (n : Nat) (r : String) (b : Json) (d : Bool),
      Action.postResponse r b d ∈ retryTrace rid body n → r = rid ∧ b = body
  | 0, r, b, d => by
      intro hmem
      simp [retryTrace] at hmem
      exact ⟨hmem.1, hmem.2.1⟩
  | n + 1, r, b, d => by
      intro hmem
      simp [retryTrace] at hmem
      rcases hmem with ⟨h1, h2, _⟩ | h
      · exact ⟨h1, h2⟩
      · exact mem_retryTrace rid body n r b d h

lemma respondRetry_done_iff (rid : String) (body : Json) :
    ∀ outcomes : List PostOutcome,
      (respondRetry rid body outcomes).2 = true ↔
        ∃ s, PostOutcome.completed s ∈ outcomes
  | [] => by simp [respondRetry]
  | .netFail :: rest => by
      simp [respondRetry, respondRetry_done_iff rid body rest]
  | .completed s :: rest => by
      simp [respondRetry]

lemma respondRetry_counts (rid : String) (body : Json) :
    ∀ outcomes : List PostOutcome,
      countTerminal (respondRetry rid body outcomes).1
          = (if (respondRetry rid body outcomes).2 then 1 else 0) ∧
        countGetNext (respondRetry rid body outcomes).1 = 0
  | [] => by simp [respondRetry, countTerminal, countGetNext]
  | .netFail :: rest => by
      have ih := respondRetry_counts rid body rest
      refine ⟨?_, ?_⟩
      · simpa [respondRetry, countTerminal, isTerminal, List.filter] using ih.1
      · simpa [respondRetry, countGetNext, isGetNext, List.filter] using ih.2
  | .completed s :: rest => by
      refine ⟨?_, ?_⟩ <;>
        simp [respondRetry, countTerminal, countGetNext, isTerminal, isGetNext,
          List.filter]

lemma respondRetry_delivered_count (rid : String) (body : Json) :
    ∀ outcomes : List PostOutcome,
      countDeliveredResponseFor rid (respondRetry rid body outcomes).1
        = if (respondRetry rid body outcomes).2 then 1 else 0
  | [] => by simp [respondRetry, countDeliveredResponseFor]
  | .netFail :: rest => by
      simpa [respondRetry, countDeliveredResponseFor, isDeliveredResponseFor,
        List.filter] using respondRetry_delivered_count rid body rest
  | .completed s :: rest => by
      simp [respondRetry, countDeliveredResponseFor, isDeliveredResponseFor, List.filter]

lemma splitFirstChar_eq_none (c : Char) :
    ∀ l : List Char, c ∉ l → splitFirstChar c l = none
  | [] => fun _ => rfl
  | x :: rest => fun hmem => by
      have hx : ¬ x = c := fun h => hmem (h ▸ List.mem_cons_self _ _)
      simp [splitFirstChar, hx,
        splitFirstChar_eq_none c rest (fun h => hmem (List.mem_cons_of_mem _ h))]

lemma runLoop_mem (h : String) :
    ∀ (envs : List IterEnv) (buf : Buffers) (out : IterOut),
      out ∈ (runLoop h buf envs).1 → ∃ b e, e ∈ envs ∧ out = iter h b e := by
  intro envs
  induction envs with
  | nil => intro buf out hmem; simp [runLoop] at hmem
  | cons env rest ih =>
      intro buf out hmem
      rw [runLoop] at hmem
      rcases hres : (iter h buf env).result with b2 | _ | b2 <;>
        simp only [hres] at hmem
      · rcases List.mem_cons.1 hmem with heq | htail
        · exact ⟨buf, env, List.mem_cons_self _ _, heq⟩
        · rcases ih b2 out htail with ⟨b, e, he, heq⟩
          exact ⟨b, e, List.mem_cons_of_mem _ he, heq⟩
      · rcases List.mem_singleton.1 hmem with heq
        exact ⟨buf, env, List.mem_cons_self _ _, heq⟩
      · rcases List.mem_singleton.1 hmem with heq
        exact ⟨buf, env, List.mem_cons_self _ _, heq⟩

lemma iter_shape (h : String) (buf : Buffers) (env : IterEnv) :
    countGetNext (iter h buf env).actions = 1 ∧
      countTerminal (iter h buf env).actions ≤ 1 ∧
      (∀ b2, (iter h buf env).result = IterResult.next b2 →
        (iter h buf env).actions.head? = some (Action.getNext true) →
        countTerminal (iter h buf env).actions = 1) := by
  obtain ⟨f, ⟨so, se, ho⟩, ep, rps⟩ := env
  cases f with
  | fail ex =>
      cases ep <;>
        simp [iter, report_error, postDelivered, countGetNext, countTerminal,
          isGetNext, isTerminal, List.filter]
  | ok fd =>
      cases ho with
      | raises ex =>
          cases ep <;>
            simp [iter, report_error, postDelivered, countGetNext, countTerminal,
              isGetNext, isTerminal, List.filter]
      | returns result =>
          have hc := respondRetry_counts fd.requestId result rps
          refine ⟨?_, ?_, ?_⟩
          · show countGetNext (respondRetry fd.requestId result rps).1 + 1 = 1
            rw [hc.2]
          · show countTerminal (respondRetry fd.requestId result rps).1 ≤ 1
            rw [hc.1]
            split <;> omega
          · intro b2 hres _
            show countTerminal (respondRetry fd.requestId result rps).1 = 1
            by_cases hd : (respondRetry fd.requestId result rps).2
            · rw [hc.1, if_pos hd]
            · rw [Bool.not_eq_true] at hd
              simp [iter, buildContext, hd] at hres

/-- Claim C1, counterexample. The claim states the response-delivery POST
raises `TransportError` whenever it completes with a non-success HTTP status,
and that the driver keeps retrying until a successful-status delivery. In the
source the retry loop calls `requests.post` with no `raise_for_status`, so a
POST that completes with status 500 ends the loop: one single attempt, marked
delivered, although 500 is not a success status — the driver does not retry
on non-success statuses. -/
theorem responseRetryAcceptsStatus500 :
    respondRetry "abc123" Json.null [PostOutcome.completed 500]
        = ([Action.postResponse "abc123" Json.null true], true)
      ∧ isSuccessStatus 500 = false :=
  ⟨rfl, rfl⟩

/-- Claim C1, amended: the response retry loop treats the POST as delivered as
soon as any attempt completes, regardless of its HTTP status (no status check
is performed), and retries only past network failures: delivery is reached
exactly when some attempt in the oracle completed, and exactly one attempt is
then marked delivered. -/
theorem responseRetryRetriesOnlyOnNetworkFailure (rid : String) (body : Json)
    (outcomes : List PostOutcome) :
    ((respondRetry rid body outcomes).2 = true ↔
        ∃ s, PostOutcome.completed s ∈ outcomes)
      ∧ countDeliveredResponseFor rid (respondRetry rid body outcomes).1
          = (if (respondRetry rid body outcomes).2 then 1 else 0) :=
  ⟨respondRetry_done_iff rid body outcomes, respondRetry_delivered_count rid body outcomes⟩

/-- Claim C2, counterexample. The claim states that the error-reporting
operation never raises and that a failed error-report POST cannot terminate
the invocation loop. In the source `report_error` wraps its `requests.post`
in no try/except: with a network failure the call raises (second component
`true`), and a fetch-failure pass whose error report fails this way ends with
the exception escaping the loop — the process crashes. -/
theorem reportErrorRaisesOnNetworkFailure :
    (report_error ⟨"boom", ["Traceback"]⟩ none PostOutcome.netFail).2 = true
      ∧ (iter "h" initialBuffers
            ⟨FetchOutcome.fail ⟨"connection refused", []⟩,
              ⟨"", "", HandlerOutcome.returns Json.null⟩,
              PostOutcome.netFail, []⟩).result = IterResult.crashed :=
  ⟨rfl, rfl⟩

/-- Claim C2, amended: `report_error` swallows any HTTP status of its POST
(no status check), but a network failure of the POST itself propagates to the
caller: the fetch-failure path of the loop then crashes the process, and on
the startup path the exception escapes before `sys.exit(1)`, terminating the
process with an unhandled exception. -/
theorem reportErrorPropagatesPostFailure :
    (∀ (ex : Exc) (ctx : Option String) (s : Nat),
        (report_error ex ctx (PostOutcome.completed s)).2 = false)
      ∧ (∀ (ex : Exc) (ctx : Option String),
          (report_error ex ctx PostOutcome.netFail).2 = true)
      ∧ (∀ (h : String) (buf : Buffers) (ex : Exc) (hb : HandlerBehavior)
            (rps : List PostOutcome),
          (iter h buf ⟨FetchOutcome.fail ex, hb, PostOutcome.netFail, rps⟩).result
            = IterResult.crashed)
      ∧ (∀ (arg mp fn : String) (ex : Exc),
          splitLastDot arg = some (mp, fn) →
          startup arg (ResolutionOutcome.loadRaises ex) PostOutcome.netFail
            = ([Action.postInitError (errorRecordOf ex) false],
                StartupResult.crashedUnhandled)) := by
  refine ⟨?_, ?_, ?_, ?_⟩
  · intro ex ctx s; cases ctx <;> rfl
  · intro ex ctx; cases ctx <;> rfl
  · intro h buf ex hb rps; rfl
  · intro arg mp fn ex hsplit
    simp [startup, hsplit, resolutionExc, report_error, postDelivered]

/-- Claim C2 witness: the amended theorem applied to a concrete argument,
with the `rsplit` hypothesis discharged by evaluation. -/
theorem reportErrorPropagatesPostFailureWitness :
    startup "module.handler" (ResolutionOutcome.loadRaises ⟨"boom", []⟩)
        PostOutcome.netFail
      = ([Action.postInitError (errorRecordOf ⟨"boom", []⟩) false],
          StartupResult.crashedUnhandled) :=
  reportErrorPropagatesPostFailure.2.2.2 "module.handler" "module" "handler"
    ⟨"boom", []⟩ rfl

/-- Claim C3, counterexample. The claim states that after a handler exception
the buffers are drained before the next fetch, so no text of a failed
invocation appears in a later invocation's drained output. Concretely: the
first invocation writes "SECRET" to stdout and raises, the second succeeds;
the drained stdout of the second invocation contains the first one's
"SECRET", because the `continue` on the handler-exception path skips the
truncation of the buffers. -/
theorem failedInvocationOutputLeaks :
    (runLoop "h" initialBuffers
          [⟨FetchOutcome.ok ⟨"r1", "arn", 1000, Json.null⟩,
              ⟨"SECRET\n", "", HandlerOutcome.raises ⟨"boom", ["tb"]⟩⟩,
              PostOutcome.completed 202, []⟩,
            ⟨FetchOutcome.ok ⟨"r2", "arn", 1000, Json.null⟩,
              ⟨"", "", HandlerOutcome.returns Json.null⟩,
              PostOutcome.completed 202, [PostOutcome.completed 200]⟩]).1.map
        IterOut.drained
      = [none,
          some ⟨"invoking handler h\nSECRET\ninvoking handler h\nhandler returned null\n",
            ""⟩]
      ∧ List.IsInfix "SECRET".data
          "invoking handler h\nSECRET\ninvoking handler h\nhandler returned null\n".data :=
  ⟨rfl, ⟨"invoking handler h\n".data,
    "\ninvoking handler h\nhandler returned null\n".data, by decide⟩⟩

/-- Claim C3, amended: on a handler exception the driver re-enters the fetch
WITHOUT draining or resetting the capture buffers — the pass reads nothing
out of them (`drained = none`) and the next pass starts with the buffers
still holding everything the failed invocation (and the invoking-line print)
appended. The buffers are truncated only at the end of a successful pass. -/
theorem handlerFailureKeepsBuffers (h : String) (buf : Buffers) (fd : FetchData)
    (so se : String) (ex : Exc) (s : Nat) (rps : List PostOutcome) :
    (iter h buf ⟨FetchOutcome.ok fd, ⟨so, se, HandlerOutcome.raises ex⟩,
          PostOutcome.completed s, rps⟩).result
        = IterResult.next
            ⟨buf.stdout_buffer ++ invokingLine h ++ so, buf.stderr_buffer ++ se⟩
      ∧ (iter h buf ⟨FetchOutcome.ok fd, ⟨so, se, HandlerOutcome.raises ex⟩,
            PostOutcome.completed s, rps⟩).drained = none :=
  ⟨rfl, rfl⟩

/-- Claim C4: the loop runs its passes strictly one after another (the model
is a sequential fold, and every pass performs exactly one fetch and at most
one terminal delivery — so at most one invocation is ever in flight), and
whenever a pass whose fetch produced an invocation hands control to the next
fetch (`result = next _`), its trace holds exactly one terminal action: one
delivered response POST or one delivered invocation-error POST. Passes that
crash or stay stuck retrying never reach the next fetch. -/
theorem oneTerminalActionPerFetchedInvocation (h : String) (buf : Buffers)
    (envs : List IterEnv) :
    ∀ out ∈ (runLoop h buf envs).1,
      countGetNext out.actions = 1
        ∧ countTerminal out.actions ≤ 1
        ∧ (∀ b2, out.result = IterResult.next b2 →
            out.actions.head? = some (Action.getNext true) →
            countTerminal out.actions = 1) := by
  intro out hmem
  rcases runLoop_mem h envs buf out hmem with ⟨b, e, _, rfl⟩
  exact iter_shape h b e

/-- Claim C4 witness: the theorem applied to a concrete one-pass run whose
fetch succeeds and whose response is delivered on the first attempt. -/
theorem oneTerminalActionPerFetchedInvocationWitness :
    countTerminal
        (iter "h" initialBuffers
          ⟨FetchOutcome.ok ⟨"abc123", "arn", 0, Json.null⟩,
            ⟨"", "", HandlerOutcome.returns Json.null⟩,
            PostOutcome.completed 200, [PostOutcome.completed 200]⟩).actions = 1 :=
  (oneTerminalActionPerFetchedInvocation "h" initialBuffers
      [⟨FetchOutcome.ok ⟨"abc123", "arn", 0, Json.null⟩,
          ⟨"", "", HandlerOutcome.returns Json.null⟩,
          PostOutcome.completed 200, [PostOutcome.completed 200]⟩]
      (iter "h" initialBuffers
        ⟨FetchOutcome.ok ⟨"abc123", "arn", 0, Json.null⟩,
          ⟨"", "", HandlerOutcome.returns Json.null⟩,
          PostOutcome.completed 200, [PostOutcome.completed 200]⟩)
      (List.mem_cons_self _ _)).2.2 initialBuffers rfl rfl

/-- Claim C5: a pass whose handler returns result `R`, with the response POST
completing after `n` network failures, issues its attempts for exactly the
fetched `requestId` with body `R` (the wire body is the serialized `R`, equal
to `R` after deserialization by the json round-trip), marks exactly one of
them delivered, and ends the pass normally: success for that requestId is
reported exactly once. -/
theorem responseDeliveredForFetchedRequest (h : String) (buf : Buffers)
    (fd : FetchData) (so se : String) (result : Json) (ep : PostOutcome)
    (n status : Nat) :
    (iter h buf ⟨FetchOutcome.ok fd, ⟨so, se, HandlerOutcome.returns result⟩, ep,
          List.replicate n PostOutcome.netFail ++ [PostOutcome.completed status]⟩).actions
        = Action.getNext true :: retryTrace fd.requestId result n
      ∧ countDeliveredResponseFor fd.requestId
          (iter h buf ⟨FetchOutcome.ok fd, ⟨so, se, HandlerOutcome.returns result⟩, ep,
            List.replicate n PostOutcome.netFail ++ [PostOutcome.completed status]⟩).actions
          = 1
      ∧ (∀ (r : String) (b : Json) (d : Bool),
          Action.postResponse r b d ∈
            (iter h buf ⟨FetchOutcome.ok fd, ⟨so, se, HandlerOutcome.returns result⟩, ep,
              List.replicate n PostOutcome.netFail ++
                [PostOutcome.completed status]⟩).actions →
          r = fd.requestId ∧ b = result)
      ∧ (iter h buf ⟨FetchOutcome.ok fd, ⟨so, se, HandlerOutcome.returns result⟩, ep,
            List.replicate n PostOutcome.netFail ++ [PostOutcome.completed status]⟩).result
          = IterResult.next initialBuffers := by
  have hr := respondRetry_replicate fd.requestId result status [] n
  refine ⟨?_, ?_, ?_, ?_⟩
  · show Action.getNext true ::
        (respondRetry fd.requestId result
          (List.replicate n PostOutcome.netFail ++ [PostOutcome.completed status])).1
      = Action.getNext true :: retryTrace fd.requestId result n
    rw [hr]
  · show countDeliveredResponseFor fd.requestId
        (respondRetry fd.requestId result
          (List.replicate n PostOutcome.netFail ++ [PostOutcome.completed status])).1
      = 1
    rw [hr]
    exact countDeliveredResponseFor_retryTrace fd.requestId result n
  · intro r b d hmem
    have hacts : (iter h buf ⟨FetchOutcome.ok fd,
          ⟨so, se, HandlerOutcome.returns result⟩, ep,
          List.replicate n PostOutcome.netFail ++
            [PostOutcome.completed status]⟩).actions
        = Action.getNext true :: retryTrace fd.requestId result n := by
      show Action.getNext true ::
          (respondRetry fd.requestId result
            (List.replicate n PostOutcome.netFail ++ [PostOutcome.completed status])).1
        = Action.getNext true :: retryTrace fd.requestId result n
      rw [hr]
    rw [hacts] at hmem
    rcases List.mem_cons.1 hmem with heq | htail
    · exact absurd heq (by simp)
    · exact mem_retryTrace fd.requestId result n r b d htail
  · have hdone : (respondRetry fd.requestId result
        (List.replicate n PostOutcome.netFail ++ [PostOutcome.completed status])).2
        = true := by rw [hr]
    show (if (respondRetry fd.requestId result
        (List.replicate n PostOutcome.netFail ++ [PostOutcome.completed status])).2
        then IterResult.next initialBuffers else _) = IterResult.next initialBuffers
    rw [hdone]
    rfl

/-- Claim C5 witness: the theorem at a concrete invocation, with the
membership hypothesis of the third conjunct discharged on the delivered
attempt. -/
theorem responseDeliveredForFetchedRequestWitness :
    "abc123" = "abc123" ∧ Json.null = Json.null :=
  (responseDeliveredForFetchedRequest "h" initialBuffers
      ⟨"abc123", "arn", 0, Json.null⟩ "" "" Json.null (PostOutcome.completed 200)
      0 200).2.2.1 "abc123" Json.null true
    (List.mem_cons_of_mem _ (List.mem_cons_self _ _))

/-- Claim C6, counterexample. The claim states that after a handler exception
the driver always proceeds to fetch the next invocation without terminating
the process. But `report_error` does not catch failures of its own POST: if
the invocation-error POST fails with a network error, the exception escapes
the `except` clause and the process terminates instead of fetching again. -/
theorem handlerErrorReportFailureCrashes :
    (iter "h" initialBuffers
        ⟨FetchOutcome.ok ⟨"abc123", "arn", 0, Json.null⟩,
          ⟨"", "", HandlerOutcome.raises ⟨"bad input", ["tb"]⟩⟩,
          PostOutcome.netFail, []⟩).result = IterResult.crashed :=
  rfl

/-- Claim C6, amended: when the handler raises and the invocation-error POST
itself completes (any HTTP status), the pass performs exactly one
invocation-error POST, for the fetched requestId, whose errorMessage is
exactly the exception's message text (`str(ex)`), and the loop proceeds to
the next fetch; when that POST fails with a network error, the exception
propagates and the process terminates. -/
theorem handlerErrorReportedOnce (h : String) (buf : Buffers) (fd : FetchData)
    (so se : String) (ex : Exc) (s : Nat) (rps : List PostOutcome) :
    (iter h buf ⟨FetchOutcome.ok fd, ⟨so, se, HandlerOutcome.raises ex⟩,
          PostOutcome.completed s, rps⟩).actions
        = [Action.getNext true,
            Action.postInvocationError fd.requestId (errorRecordOf ex) true]
      ∧ (errorRecordOf ex).errorMessage = ex.message
      ∧ (∃ b2, (iter h buf ⟨FetchOutcome.ok fd, ⟨so, se, HandlerOutcome.raises ex⟩,
            PostOutcome.completed s, rps⟩).result = IterResult.next b2)
      ∧ (∀ rps2 : List PostOutcome,
          (iter h buf ⟨FetchOutcome.ok fd, ⟨so, se, HandlerOutcome.raises ex⟩,
            PostOutcome.netFail, rps2⟩).result = IterResult.crashed) :=
  ⟨rfl, rfl, ⟨_, rfl⟩, fun _ => rfl⟩

/-- Claim C7: whenever handler resolution fails — the file is missing, the
module raises during load, the attribute is absent, or it is not callable —
the startup path performs exactly one init-error POST (a best-effort attempt:
it is issued whatever its outcome), the process ends with a non-zero exit
status (1 from `sys.exit(1)`, or status 1 from the unhandled exception when
the report POST itself raised), and the invocation loop is never entered. -/
theorem resolutionFailureReportsInitError (arg mp fn : String)
    (res : ResolutionOutcome) (ex : Exc) (initPost : PostOutcome)
    (hsplit : splitLastDot arg = some (mp, fn))
    (hres : resolutionExc fn (basename mp) res = some ex) :
    countInitErrorPosts (startup arg res initPost).1 = 1
      ∧ (startup arg res initPost).1
          = [Action.postInitError (errorRecordOf ex) (postDelivered initPost)]
      ∧ (∃ code, startupExitStatus (startup arg res initPost).2 = some code ∧ code ≠ 0)
      ∧ (∀ m f, (startup arg res initPost).2 ≠ StartupResult.enteredLoop m f) := by
  have h1 : startup arg res initPost
      = ([Action.postInitError (errorRecordOf ex) (postDelivered initPost)],
          if !postDelivered initPost then StartupResult.crashedUnhandled
          else StartupResult.exited 1) := by
    simp [startup, hsplit, hres, report_error]
  refine ⟨?_, ?_, ?_, ?_⟩
  · rw [h1]; cases initPost <;> rfl
  · rw [h1]
  · rw [h1]
    cases initPost <;> exact ⟨1, rfl, one_ne_zero⟩
  · intro m f
    rw [h1]
    cases initPost <;> simp [postDelivered]

/-- Claim C7 witness: a non-callable attribute with a delivered init-error
POST; the resolution hypotheses evaluate by rfl. -/
theorem resolutionFailureReportsInitErrorWitness :
    countInitErrorPosts
        (startup "src/module.handler" (ResolutionOutcome.notCallable ["tb"])
          (PostOutcome.completed 202)).1 = 1 :=
  (resolutionFailureReportsInitError "src/module.handler" "src/module" "handler"
      (ResolutionOutcome.notCallable ["tb"])
      ⟨"handler is not a callable function in module", ["tb"]⟩
      (PostOutcome.completed 202) rfl rfl).1

/-- Claim C8: if the response POST fails with a network error on its first
`n` attempts and completes on the next one, the driver calls the POST exactly
`n + 1` times, sleeps the fixed 500 ms exactly once between consecutive
attempts (`n` sleeps in total, no backoff growth — the exact trace alternates
attempt, sleep, attempt, ...), and exactly one attempt is the delivered
response for that requestId. -/
theorem retryNFailuresThenSuccess (rid : String) (body : Json) (n status : Nat) :
    respondRetry rid body
        (List.replicate n PostOutcome.netFail ++ [PostOutcome.completed status])
      = (retryTrace rid body n, true)
      ∧ countResponseAttempts (retryTrace rid body n) = n + 1
      ∧ countSleeps 500 (retryTrace rid body n) = n
      ∧ countDeliveredResponseFor rid (retryTrace rid body n) = 1 :=
  ⟨respondRetry_replicate rid body status [] n,
    countResponseAttempts_retryTrace rid body n,
    countSleeps_retryTrace rid body n,
    countDeliveredResponseFor_retryTrace rid body n⟩

/-- Claim C9: the context's remaining-time operation, built from the fetched
invocation's deadline header, returns the deadline minus the wall-clock time
of the call, floored at 0: it is never negative, equals the difference while
before the deadline, is 0 from the deadline on, and is recomputed from the
call time — evaluating it later never yields more. -/
theorem remainingTimeFloored (fd : FetchData) (t : Int) :
    getRemainingTimeInMillis (buildContext fd) t = max (fd.deadlineMs - t) 0
      ∧ 0 ≤ getRemainingTimeInMillis (buildContext fd) t
      ∧ (fd.deadlineMs ≤ t → getRemainingTimeInMillis (buildContext fd) t = 0)
      ∧ (t ≤ fd.deadlineMs →
          getRemainingTimeInMillis (buildContext fd) t = fd.deadlineMs - t)
      ∧ (∀ k : Nat, getRemainingTimeInMillis (buildContext fd) (t + k)
          ≤ getRemainingTimeInMillis (buildContext fd) t) := by
  refine ⟨rfl, ?_, fun h1 => ?_, fun h1 => ?_, fun k => ?_⟩ <;>
    simp only [getRemainingTimeInMillis, buildContext] <;> omega

/-- Claim C9 witness: 500 ms past a deadline of 1000 the remaining time is
floored to 0. -/
theorem remainingTimeFlooredWitness :
    getRemainingTimeInMillis (buildContext ⟨"r", "arn", 1000, Json.null⟩) 1500 = 0 :=
  (remainingTimeFloored ⟨"r", "arn", 1000, Json.null⟩ 1500).2.2.1 (by decide)

/-- Claim C10: when the startup argument contains no dot, `rsplit(".", 1)`
yields a single element and the two-name unpacking raises ValueError before
the guarded resolution `try` block, so the process dies with an unhandled
exception (exit status 1) and no init-error POST — indeed no network action
at all — is ever issued, whatever the resolution and POST oracles would have
said. -/
theorem noDotArgumentCrashesUnreported (arg : String)
    (hnd : '.' ∉ arg.data) (res : ResolutionOutcome) (initPost : PostOutcome) :
    startup arg res initPost = ([], StartupResult.crashedUnhandled)
      ∧ countInitErrorPosts (startup arg res initPost).1 = 0
      ∧ startupExitStatus (startup arg res initPost).2 = some 1 := by
  have hrev : '.' ∉ arg.data.reverse := by simpa using hnd
  have hsplit : splitLastDot arg = none := by
    simp [splitLastDot, splitLastChar, splitFirstChar_eq_none _ _ hrev]
  have h1 : startup arg res initPost = ([], StartupResult.crashedUnhandled) := by
    simp [startup, hsplit]
  exact ⟨h1, by rw [h1]; rfl, by rw [h1]; rfl⟩

/-- Claim C10 witness: a dot-free argument crashes startup with no actions. -/
theorem noDotArgumentCrashesUnreportedWitness :
    startup "nodothere" ResolutionOutcome.ok PostOutcome.netFail
      = ([], StartupResult.crashedUnhandled) :=
  (noDotArgumentCrashesUnreported "nodothere" (by decide) ResolutionOutcome.ok
    PostOutcome.netFail).1

end PyRuntime

